import Mathlib

/-!
Verification development for the bottleneck PR-velocity analyzer.

The Go program fetches pull-request records and runs a fixed pipeline of
pure aggregations over them.  We embed the analytics core shallowly:

* `time.Time` instants and `time.Duration` values are modelled as `Int`
  nanoseconds since the Unix epoch (Go durations are int64 nanoseconds);
  sums are exact (the embedding ignores int64 overflow, which the data
  volumes involved cannot reach).
* Go integer division on durations truncates toward zero, which is
  `Int.tdiv`.
* `sort.Slice` with a strict comparator produces a permutation sorted by
  the corresponding non-strict relation; we model it by `List.insertionSort`
  (faithful up to the order of ties, which no property below depends on).
* `pr.MergedAt.Format("2006-01")` is modelled by a Gregorian calendar
  computation producing the key year*100+month; lexicographic order of the
  "YYYY-MM" strings coincides with numeric order of these keys.
* float64 statistics (Pearson correlation, reviewer-load percentages) are
  modelled in exact arithmetic over `ℚ` (and `ℝ` for the square root).
  `int(float64(n) * 0.05)` equals `n / 20` (natural division) for every
  list length reachable here: the rounding error of `float64(n)*0.05` is
  below `n * 2.8e-18`, far too small to cross an integer boundary for
  `n < 2^52`.
-/

/-- The PullRequest record built by the acquisition layer (struct
`PullRequest` in the source): timestamps in ns since the epoch,
`firstReviewAt` absent when no review occurred, `size` =
additions + deletions. -/
structure PullRequest where
  number : Int
  createdAt : Int
  updatedAt : Int
  mergedAt : Int
  firstReviewAt : Option Int
  author : String
  title : String
  size : Int
  filePaths : List String
  reviewers : List String
  requested : List String
deriving DecidableEq

/-- Merge duration `pr.MergedAt.Sub(pr.CreatedAt)`: note the source never
clamps this quantity. -/
def mergeDuration (pr : PullRequest) : Int := pr.mergedAt - pr.createdAt

/-- Ascending-duration ordering used by `filterOutliers` via `sort.Slice`. -/
def durLE (a b : PullRequest) : Prop := mergeDuration a ≤ mergeDuration b

instance : DecidableRel durLE :=
  fun a b => inferInstanceAs (Decidable (mergeDuration a ≤ mergeDuration b))

instance : IsTotal PullRequest durLE := ⟨fun a b => le_total (mergeDuration a) (mergeDuration b)⟩

instance : IsTrans PullRequest durLE := ⟨fun _ _ _ hab hbc => le_trans hab hbc⟩

/-- Descending-duration ordering used by `printLongTailAuthors`. -/
def durGE (a b : PullRequest) : Prop := mergeDuration b ≤ mergeDuration a

instance : DecidableRel durGE :=
  fun a b => inferInstanceAs (Decidable (mergeDuration b ≤ mergeDuration a))

/-- The in-place `sort.Slice(prs, ...)` in `filterOutliers`, by ascending
merge duration. -/
def sortByDuration (prs : List PullRequest) : List PullRequest :=
  List.insertionSort durLE prs

/-- Tail size in `filterOutliers`: `cut := int(float64(n) * 0.05); if cut == 0 { cut = 1 }`.
The float expression computes exactly `n / 20` (see the header note). -/
def cutOf (n : Nat) : Nat := if n / 20 = 0 then 1 else n / 20

/-- `filterOutliers` with its side effect made explicit.  The first
component is the returned slice `prs[cut : len(prs)-cut]`; the second is
the content of the caller's slice after the call — `sort.Slice` sorts the
shared backing array in place, so when trimming happens the caller is left
holding the duration-sorted order. -/
def filterOutliersRun (prs : List PullRequest) : List PullRequest × List PullRequest :=
  if prs.length < 4 then (prs, prs)
  else
    (((sortByDuration prs).drop (cutOf prs.length)).take (prs.length - 2 * cutOf prs.length),
     sortByDuration prs)

/-- Return value of `filterOutliers`. -/
def filterOutliers (prs : List PullRequest) : List PullRequest := (filterOutliersRun prs).1

/-- The lower tail removed by `filterOutliers` (the `cut` fastest records). -/
def removedLow (prs : List PullRequest) : List PullRequest :=
  (sortByDuration prs).take (cutOf prs.length)

/-- The upper tail removed by `filterOutliers` (the `cut` slowest records). -/
def removedHigh (prs : List PullRequest) : List PullRequest :=
  (sortByDuration prs).drop (prs.length - cutOf prs.length)

/-- Slow-decile size in `printLongTailAuthors`: `limit := len(prs)/10; if limit == 0 { limit = 1 }`. -/
def longTailLimit (n : Nat) : Nat := if n / 10 = 0 then 1 else n / 10

/-- `printLongTailAuthors` with its (absent) side effect made explicit: the
function copies `prs` into `sortedPRs` and sorts only the copy, so the
caller's slice (second component) is returned untouched.  The first
component is the slow-decile subset `sortedPRs[:limit]`. -/
def longTailRun (prs : List PullRequest) : List PullRequest × List PullRequest :=
  ((List.insertionSort durGE prs).take (longTailLimit prs.length), prs)

/-- Result record of `printGeneralStats` (count, average, median, min, max
of merge duration). -/
structure GeneralStats where
  count : Nat
  avg : Int
  median : Int
  minDur : Int
  maxDur : Int
deriving DecidableEq

/-- `printGeneralStats`: undefined (Go would divide by zero) on an empty
sample, which the caller guards against; modelled as `none` there.  The
durations are sorted on a private copy; `avg` and the even-length median
use Go truncating division. -/
def generalStats (prs : List PullRequest) : Option GeneralStats :=
  if prs.length = 0 then none
  else
    let durations := prs.map mergeDuration
    let sortedD := List.insertionSort (fun a b : Int => a ≤ b) durations
    let mid := durations.length / 2
    let median :=
      if durations.length % 2 = 0
      then Int.tdiv (sortedD.getD (mid - 1) 0 + sortedD.getD mid 0) 2
      else sortedD.getD mid 0
    some ⟨prs.length, Int.tdiv durations.sum (prs.length : Int), median,
          sortedD.getD 0 0, sortedD.getD (durations.length - 1) 0⟩

/-- Per-record phase deltas of `printReviewStats`: for a record with a
first review, `wait = FirstReviewAt - CreatedAt` and
`review = MergedAt - FirstReviewAt`, each clamped to 0 when negative
(`if wait < 0 { wait = 0 }`, `if review < 0 { review = 0 }`). -/
def reviewWaitReview (pr : PullRequest) : Option (Int × Int) :=
  match pr.firstReviewAt with
  | none => none
  | some fr =>
    let wait0 := fr - pr.createdAt
    let review0 := pr.mergedAt - fr
    some (if wait0 < 0 then 0 else wait0, if review0 < 0 then 0 else review0)

/-- Aggregate of `printReviewStats`: average wait, average review time and
reviewed-record count; `none` when no record has a review. -/
def reviewStats (prs : List PullRequest) : Option (Int × Int × Nat) :=
  let pairs := prs.filterMap reviewWaitReview
  if pairs.length = 0 then none
  else
    some (Int.tdiv (pairs.map Prod.fst).sum (pairs.length : Int),
          Int.tdiv (pairs.map Prod.snd).sum (pairs.length : Int),
          pairs.length)

/-- Review tally of `printHeroAnalysis`: `reviewCounts[reviewer]++` summed
over `pr.Reviewers` of every record in the sample it receives. -/
def heroReviewCount (prs : List PullRequest) (nm : String) : Nat :=
  (prs.map (fun pr => pr.reviewers.count nm)).sum

/-- Total review tally of `printHeroAnalysis` (`totalReviews`). -/
def heroTotalReviews (prs : List PullRequest) : Nat :=
  (prs.map (fun pr => pr.reviewers.length)).sum

/-- The merged-PR sample the pipeline in `main` feeds to every merged-PR
printer: the fetched merged list, outlier-filtered when the flag is set. -/
def mergedSample (excl : Bool) (merged : List PullRequest) : List PullRequest :=
  if excl then filterOutliers merged else merged

/-- The sample `main` hands to `printHeroAnalysis`: the call sits inside
the `len(mergedPRs) > 0` block and receives `mergedPRs` (the comment in
`main` reads "Hero Syndrome (Uses Merged Data)"); the open-PR list is
passed only to the stale and ghost detectors. -/
def heroInput (excl : Bool) (merged openPRs : List PullRequest) : Option (List PullRequest) :=
  if merged.length > 0 then some (mergedSample excl merged) else none

/-- Reviewer share in `printHeroAnalysis`:
`float64(h.Count) / float64(totalReviews) * 100`, exact in ℚ (and the
float64 evaluation is exact at every threshold boundary at issue). -/
def heroPercentage (count total : Nat) : ℚ := (count : ℚ) / (total : ℚ) * 100

/-- Risk labels printed by `printHeroAnalysis`. -/
inductive HeroRisk
  | critical
  | highLoad
  | healthy
deriving DecidableEq

/-- Classification in `printHeroAnalysis`: reviewers at most 20% are not
reported at all; above that, `> 50` is critical, then `> 30` is high load,
otherwise healthy. -/
def heroRiskLevel (percentage : ℚ) : Option HeroRisk :=
  if percentage > 20 then
    some (if percentage > 50 then HeroRisk.critical
          else if percentage > 30 then HeroRisk.highLoad
          else HeroRisk.healthy)
  else none

/-- PR size as the float64 x-variable of `printSizeAnalysis`. -/
def sizeQ (pr : PullRequest) : ℚ := (pr.size : ℚ)

/-- Merge duration in hours (`.Hours()`), the y-variable of
`printSizeAnalysis`. -/
def hoursQ (pr : PullRequest) : ℚ := (mergeDuration pr : ℚ) / 3600000000000

/-- Running sum `sumX` of `printSizeAnalysis`. -/
def sumX (prs : List PullRequest) : ℚ := (prs.map sizeQ).sum

/-- Running sum `sumY` of `printSizeAnalysis`. -/
def sumY (prs : List PullRequest) : ℚ := (prs.map hoursQ).sum

/-- Running sum `sumXY` of `printSizeAnalysis`. -/
def sumXY (prs : List PullRequest) : ℚ := (prs.map (fun pr => sizeQ pr * hoursQ pr)).sum

/-- Running sum `sumX2` of `printSizeAnalysis`. -/
def sumX2 (prs : List PullRequest) : ℚ := (prs.map (fun pr => sizeQ pr * sizeQ pr)).sum

/-- Running sum `sumY2` of `printSizeAnalysis`. -/
def sumY2 (prs : List PullRequest) : ℚ := (prs.map (fun pr => hoursQ pr * hoursQ pr)).sum

/-- Pearson numerator `n*sumXY - sumX*sumY`. -/
def pearsonNumerator (prs : List PullRequest) : ℚ :=
  (prs.length : ℚ) * sumXY prs - sumX prs * sumY prs

/-- The radicand of the Pearson denominator
`(n*sumX2 - sumX*sumX) * (n*sumY2 - sumY*sumY)`.  It is a product of two
non-negative variances, so the code's guard `denominator != 0` on
`math.Sqrt` of it holds exactly when this radicand is nonzero. -/
def pearsonDenomSq (prs : List PullRequest) : ℚ :=
  ((prs.length : ℚ) * sumX2 prs - sumX prs * sumX prs) *
    ((prs.length : ℚ) * sumY2 prs - sumY prs * sumY prs)

/-- Correlation coefficient of `printSizeAnalysis`: `0.0` when the
denominator is zero, otherwise `numerator / denominator`. -/
noncomputable def correlation (prs : List PullRequest) : ℝ :=
  if pearsonDenomSq prs = 0 then 0
  else (pearsonNumerator prs : ℝ) / Real.sqrt ((pearsonDenomSq prs : ℝ))

/-- Nanoseconds per day. -/
def nsPerDay : Int := 86400000000000

/-- Gregorian (year, month) of a day count since 1970-01-01, the calendar
computation behind `time.Time.Format("2006-01")` in UTC. -/
def civilYM (z0 : Int) : Int × Int :=
  let z := z0 + 719468
  let era := Int.fdiv z 146097
  let doe := z - era * 146097
  let yoe := (doe - doe / 1460 + doe / 36524 - doe / 146096) / 365
  let y := yoe + era * 400
  let doy := doe - (365 * yoe + yoe / 4 - yoe / 100)
  let mp := (5 * doy + 2) / 153
  let m := mp + (if mp < 10 then 3 else -9)
  (if m ≤ 2 then y + 1 else y, m)

/-- Month key of an instant, encoding the `"YYYY-MM"` string as
year*100+month; lexicographic string order equals numeric key order. -/
def monthKey (t : Int) : Int :=
  let ym := civilYM (Int.fdiv t nsPerDay)
  ym.1 * 100 + ym.2

/-- Records of a given merge month (the per-key accumulation of
`printTrends` / `printForecast`). -/
def monthPRs (prs : List PullRequest) (m : Int) : List PullRequest :=
  prs.filter (fun pr => monthKey pr.mergedAt == m)

/-- `stats[m].TotalDuration` of `printTrends` / `printForecast`. -/
def monthTotal (prs : List PullRequest) (m : Int) : Int :=
  ((monthPRs prs m).map mergeDuration).sum

/-- `stats[m].Count` of `printTrends` / `printForecast`. -/
def monthCount (prs : List PullRequest) (m : Int) : Nat := (monthPRs prs m).length

/-- Per-month mean `TotalDuration / Count` (Go duration division truncates
toward zero). -/
def monthAvg (prs : List PullRequest) (m : Int) : Int :=
  Int.tdiv (monthTotal prs m) ((monthCount prs m : Int))

/-- Distinct merge months in ascending order: keys are appended on first
occurrence and then sorted (`sort.Strings(months)`). -/
def monthsOf (prs : List PullRequest) : List Int :=
  List.insertionSort (fun a b : Int => a ≤ b)
    ((prs.map (fun pr => monthKey pr.mergedAt)).eraseDups)

/-- Month-over-month trend glyphs of `printTrends`. -/
inductive Trend
  | improving
  | degrading
  | flat
deriving DecidableEq

/-- Comparison of a month's mean against the previous month's mean in
`printTrends` (faster 🚀, slower 🐢, equal ➖). -/
def classifyTrend (avg prev : Int) : Trend :=
  if avg < prev then Trend.improving
  else if avg > prev then Trend.degrading
  else Trend.flat

/-- The month loop of `printTrends`: `prevAvg` starts at 0 and a trend
glyph is attached only when `prevAvg != 0`. -/
def trendsGo (prs : List PullRequest) (prev : Int) :
    List Int → List (Int × Int × Option Trend)
  | [] => []
  | m :: rest =>
    (m, monthAvg prs m,
      if prev ≠ 0 then some (classifyTrend (monthAvg prs m) prev) else none)
      :: trendsGo prs (monthAvg prs m) rest

/-- Output rows of `printTrends`: (month key, mean duration, trend glyph). -/
def trendMarks (prs : List PullRequest) : List (Int × Int × Option Trend) :=
  trendsGo prs 0 (monthsOf prs)

/-- Trend labels of `printForecast`. -/
inductive FTrend
  | slowing
  | speeding
  | stable
deriving DecidableEq

/-- The chronologically last three months (`months[len(months)-3:]`). -/
def last3Months (prs : List PullRequest) : List Int :=
  (monthsOf prs).drop ((monthsOf prs).length - 3)

/-- `first` in `printForecast`: mean of the earliest of the last three
months. -/
def firstOfThreeMean (prs : List PullRequest) : Int :=
  monthAvg prs ((last3Months prs).getD 0 0)

/-- `last` in `printForecast`: mean of the latest month. -/
def lastOfThreeMean (prs : List PullRequest) : Int :=
  monthAvg prs ((last3Months prs).getD 2 0)

/-- Slope check of `printForecast`: `diff = last - first`,
`threshold = first / 10` (duration division, truncating). -/
def forecastTrend (first last : Int) : FTrend :=
  let diff := last - first
  let threshold := Int.tdiv first 10
  if diff > threshold then FTrend.slowing
  else if diff < -threshold then FTrend.speeding
  else FTrend.stable

/-- `printForecast`: `none` ("not enough data") below 3 distinct months,
otherwise the moving-average point forecast and the slope trend. -/
def forecast (prs : List PullRequest) : Option (Int × FTrend) :=
  if (monthsOf prs).length < 3 then none
  else
    some (Int.tdiv ((last3Months prs).map (monthAvg prs)).sum 3,
          forecastTrend (firstOfThreeMean prs) (lastOfThreeMean prs))

/-- Upper bounds of the histogram buckets of `printHistogram`
(1h, 1d, 1w, 30d, MaxInt64). -/
def bucketMax : List Int :=
  [3600000000000, 86400000000000, 604800000000000, 2592000000000000, 9223372036854775807]

/-- First bucket whose (exclusive) upper bound exceeds the duration. -/
def bucketIndex (d : Int) : Nat := bucketMax.findIdx (fun mx => d < mx)

/-- Bucket counts of `printHistogram`. -/
def histogramCounts (prs : List PullRequest) : List Nat :=
  (List.range 5).map
    (fun i => (prs.filter (fun pr => bucketIndex (mergeDuration pr) == i)).length)

/-- What a run reports, for the components claim C9 names: the
"No PRs found." early exit, general statistics and the histogram. -/
structure RunResult where
  noPRs : Bool
  general : Option GeneralStats
  histogram : Option (List Nat)
deriving DecidableEq

/-- The guard structure of `main`: `if len(mergedPRs) == 0 && len(openPRs) == 0`
prints "No PRs found." and returns; the merged-PR analyses run only inside
`if len(mergedPRs) > 0`, on the (optionally outlier-filtered) merged
sample. -/
def runAnalyses (excl : Bool) (merged openPRs : List PullRequest) : RunResult :=
  if merged.length = 0 ∧ openPRs.length = 0 then ⟨true, none, none⟩
  else if merged.length > 0 then
    ⟨false, generalStats (mergedSample excl merged),
     some (histogramCounts (mergedSample excl merged))⟩
  else ⟨false, none, none⟩

/-- The correlation analysis under the same `len(mergedPRs) > 0` guard. -/
noncomputable def runCorrelation (excl : Bool) (merged : List PullRequest) : Option ℝ :=
  if merged.length > 0 then some (correlation (mergedSample excl merged)) else none

/-- Record builder for the concrete samples below (fields not under test
are zeroed). -/
def mkPR (created merged : Int) (frev : Option Int) (sz : Int) (revs : List String) :
    PullRequest :=
  ⟨0, created, 0, merged, frev, "", "", sz, [], revs, []⟩

/-- One hour in ns. -/
def hourNs : Int := 3600000000000

/-- 2024-01-01T00:00Z in ns (day 19723). -/
def jan1ns : Int := 19723 * 86400000000000

/-- 2024-02-01T00:00Z in ns (day 19754). -/
def feb1ns : Int := 19754 * 86400000000000

/-- 2024-03-01T00:00Z in ns (day 19783). -/
def mar1ns : Int := 19783 * 86400000000000

/-- A merged PR reviewed once, by alice. -/
def heroMergedEx : List PullRequest := [mkPR 0 hourNs none 10 ["alice"]]

/-- An open PR with two reviews, by bob and carol. -/
def heroOpenEx : List PullRequest := [mkPR 0 0 none 10 ["bob", "carol"]]

/-- A record whose timestamps are skewed: merged 10 minutes before created. -/
def skewPR : PullRequest := mkPR 600000000000 0 none 0 []

/-- Four PRs with ascending durations 1h..4h. -/
def prsAsc4 : List PullRequest :=
  [mkPR 0 hourNs none 1 [], mkPR 0 (2 * hourNs) none 2 [],
   mkPR 0 (3 * hourNs) none 3 [], mkPR 0 (4 * hourNs) none 4 []]

/-- Four PRs with descending durations 4h..1h (not duration-sorted). -/
def prsDesc4 : List PullRequest :=
  [mkPR 0 (4 * hourNs) none 4 [], mkPR 0 (3 * hourNs) none 3 [],
   mkPR 0 (2 * hourNs) none 2 [], mkPR 0 hourNs none 1 []]

/-- Three PRs (below the trimming threshold). -/
def prs3 : List PullRequest :=
  [mkPR 0 hourNs none 1 [], mkPR 0 (2 * hourNs) none 2 [], mkPR 0 (3 * hourNs) none 3 []]

/-- Two months, the first with a zero mean duration. -/
def cex4 : List PullRequest :=
  [mkPR jan1ns jan1ns none 0 [], mkPR feb1ns (feb1ns + hourNs) none 0 []]

/-- Two months with nonzero, increasing means (1h then 2h). -/
def wit4 : List PullRequest :=
  [mkPR jan1ns (jan1ns + hourNs) none 0 [], mkPR feb1ns (feb1ns + 2 * hourNs) none 0 []]

/-- Three months with means 48h, 24h, 12h. -/
def f48sample : List PullRequest :=
  [mkPR jan1ns (jan1ns + 48 * hourNs) none 0 [],
   mkPR feb1ns (feb1ns + 24 * hourNs) none 0 [],
   mkPR mar1ns (mar1ns + 12 * hourNs) none 0 []]

/-- Two PRs of identical size 7 and different durations. -/
def constSizeEx : List PullRequest :=
  [mkPR 0 hourNs none 7 [], mkPR 0 (2 * hourNs) none 7 []]

/-! ## Helper lemmas -/

theorem tdiv_eq_ediv_of_nonneg (a b : Int) (ha : 0 ≤ a) (hb : 0 ≤ b) :
    Int.tdiv a b = a / b := by
  obtain ⟨n, rfl⟩ := Int.eq_ofNat_of_zero_le ha
  obtain ⟨m, rfl⟩ := Int.eq_ofNat_of_zero_le hb
  rfl

theorem sortByDuration_perm (prs : List PullRequest) : (sortByDuration prs).Perm prs :=
  List.perm_insertionSort durLE prs

theorem length_sortByDuration (prs : List PullRequest) :
    (sortByDuration prs).length = prs.length := (sortByDuration_perm prs).length_eq

theorem sortByDuration_pairwise (prs : List PullRequest) :
    List.Pairwise durLE (sortByDuration prs) := List.sorted_insertionSort durLE prs

theorem cutOf_eq_max (n : Nat) : cutOf n = max 1 (n / 20) := by
  unfold cutOf
  split <;> omega

theorem cutOf_bound (n : Nat) (h : 4 ≤ n) : 2 * cutOf n + 2 ≤ n := by
  unfold cutOf
  split <;> omega

theorem filterOutliers_of_small (prs : List PullRequest) (h : prs.length < 4) :
    filterOutliers prs = prs := by
  unfold filterOutliers filterOutliersRun
  rw [if_pos h]

theorem filterOutliers_of_large (prs : List PullRequest) (h : ¬ prs.length < 4) :
    filterOutliers prs
      = ((sortByDuration prs).drop (cutOf prs.length)).take
          (prs.length - 2 * cutOf prs.length) := by
  unfold filterOutliers filterOutliersRun
  rw [if_neg h]

theorem filterOutliers_length (prs : List PullRequest) (h : 4 ≤ prs.length) :
    (filterOutliers prs).length = prs.length - 2 * cutOf prs.length := by
  rw [filterOutliers_of_large prs (by omega)]
  have hb := cutOf_bound prs.length h
  simp [List.length_take, List.length_drop, length_sortByDuration]
  omega

theorem filterOutliers_ne_nil (prs : List PullRequest) (h : prs ≠ []) :
    filterOutliers prs ≠ [] := by
  by_cases h4 : prs.length < 4
  · rw [filterOutliers_of_small prs h4]
    exact h
  · have hl := filterOutliers_length prs (by omega)
    have hb := cutOf_bound prs.length (by omega)
    intro hnil
    rw [hnil] at hl
    simp at hl
    omega

/-! ## Claim C5 -/

/-- Counterexample to claim C5 as stated: after `filterOutliers` is invoked
on four records in descending duration order, the caller's sequence has
been reordered in place by the `sort.Slice` inside it. -/
theorem c5_counterexample : (filterOutliersRun prsDesc4).2 ≠ prsDesc4 := by decide

/-- Claim C5 (amended): `printLongTailAuthors` sorts a private copy and
leaves the caller's sequence unchanged, but `filterOutliers` sorts the
caller's slice in place; what survives in general is that the mutated
sequence is a permutation of the input (same records, duration-sorted
order). -/
theorem c5_no_inplace_mutation (prs : List PullRequest) :
    (longTailRun prs).2 = prs ∧ ((filterOutliersRun prs).2).Perm prs := by
  refine ⟨rfl, ?_⟩
  unfold filterOutliersRun
  split
  · exact List.Perm.refl prs
  · exact sortByDuration_perm prs

/-! ## Claim C6 -/

/-- Claim C6: for n ≥ 4 the outlier filter keeps exactly
n − 2·max(1, ⌊0.05n⌋) records, every retained duration is at least every
removed lower-tail duration and at most every removed upper-tail duration;
for n < 4 the input is returned unchanged. -/
theorem c6_outlier_filter (prs : List PullRequest) :
    (4 ≤ prs.length →
      (filterOutliers prs).length = prs.length - 2 * max 1 (prs.length / 20)
      ∧ (∀ x ∈ filterOutliers prs, ∀ y ∈ removedLow prs, mergeDuration y ≤ mergeDuration x)
      ∧ (∀ x ∈ filterOutliers prs, ∀ z ∈ removedHigh prs, mergeDuration x ≤ mergeDuration z))
    ∧ (prs.length < 4 → filterOutliers prs = prs) := by
  constructor
  · intro h4
    refine ⟨?_, ?_, ?_⟩
    · rw [filterOutliers_length prs h4, cutOf_eq_max]
    · intro x hx y hy
      have hp := sortByDuration_pairwise prs
      have hsplit := List.take_append_drop (cutOf prs.length) (sortByDuration prs)
      have hpa : List.Pairwise durLE
          ((sortByDuration prs).take (cutOf prs.length)
            ++ (sortByDuration prs).drop (cutOf prs.length)) := by rwa [hsplit]
      have hlow := (List.pairwise_append.mp hpa).2.2
      have hx2 : x ∈ (sortByDuration prs).drop (cutOf prs.length) := by
        rw [filterOutliers_of_large prs (by omega)] at hx
        exact List.take_subset _ _ hx
      exact hlow y hy x hx2
    · intro x hx z hz
      have hp := sortByDuration_pairwise prs
      have hdrop : List.Pairwise durLE ((sortByDuration prs).drop (cutOf prs.length)) :=
        List.Pairwise.sublist (List.drop_sublist _ _) hp
      have hsplit := List.take_append_drop (prs.length - 2 * cutOf prs.length)
        ((sortByDuration prs).drop (cutOf prs.length))
      have hpa : List.Pairwise durLE
          (((sortByDuration prs).drop (cutOf prs.length)).take
              (prs.length - 2 * cutOf prs.length)
            ++ ((sortByDuration prs).drop (cutOf prs.length)).drop
              (prs.length - 2 * cutOf prs.length)) := by rwa [hsplit]
      have hhigh := (List.pairwise_append.mp hpa).2.2
      have hx2 : x ∈ ((sortByDuration prs).drop (cutOf prs.length)).take
          (prs.length - 2 * cutOf prs.length) := by
        rw [filterOutliers_of_large prs (by omega)] at hx
        exact hx
      have hz2 : z ∈ ((sortByDuration prs).drop (cutOf prs.length)).drop
          (prs.length - 2 * cutOf prs.length) := by
        rw [List.drop_drop]
        have hcb := cutOf_bound prs.length h4
        have heq : cutOf prs.length + (prs.length - 2 * cutOf prs.length)
            = prs.length - cutOf prs.length := by omega
        rw [heq]
        exact hz
      exact hhigh x hx2 z hz2
  · intro h4
    exact filterOutliers_of_small prs h4

/-- Witness for C6, at a 4-record sample (trimmed arm) and a 3-record
sample (unchanged arm). -/
theorem c6_witness :
    (filterOutliers prsAsc4).length = prsAsc4.length - 2 * max 1 (prsAsc4.length / 20)
    ∧ filterOutliers prs3 = prs3 :=
  ⟨((c6_outlier_filter prsAsc4).1 (by decide)).1, (c6_outlier_filter prs3).2 (by decide)⟩

/-! ## Claim C10 -/

/-- Claim C10: the outlier filter never empties a non-empty sample — below
4 records it is the identity, and at 4 or more it keeps at least 2
records. -/
theorem c10_filter_nonempty (prs : List PullRequest) (h : prs ≠ []) :
    filterOutliers prs ≠ []
    ∧ (prs.length < 4 → filterOutliers prs = prs)
    ∧ (4 ≤ prs.length → 2 ≤ (filterOutliers prs).length) := by
  refine ⟨filterOutliers_ne_nil prs h, fun h4 => filterOutliers_of_small prs h4, fun h4 => ?_⟩
  rw [filterOutliers_length prs h4]
  have hb := cutOf_bound prs.length h4
  omega

/-- Witness for C10 at a concrete 4-record sample. -/
theorem c10_witness :
    filterOutliers prsAsc4 ≠ [] ∧ 2 ≤ (filterOutliers prsAsc4).length := by
  have h := c10_filter_nonempty prsAsc4 (by decide)
  exact ⟨h.1, h.2.2 (by decide)⟩

/-! ## Claim C1 -/

theorem heroCount_le_total (prs : List PullRequest) (nm : String) :
    heroReviewCount prs nm ≤ heroTotalReviews prs := by
  induction prs with
  | nil => simp [heroReviewCount, heroTotalReviews]
  | cons p t ih =>
      simp only [heroReviewCount, heroTotalReviews, List.map_cons, List.sum_cons] at ih ⊢
      have hc := List.count_le_length nm p.reviewers
      omega

/-- Counterexample to claim C1 as stated: with one merged PR reviewed by
alice and one open PR reviewed by bob and carol, `main` hands the hero
detector the merged list, not the open list, and the review totals of the
two populations differ. -/
theorem c1_counterexample :
    heroInput false heroMergedEx heroOpenEx = some heroMergedEx
    ∧ heroInput false heroMergedEx heroOpenEx ≠ some heroOpenEx
    ∧ heroTotalReviews heroMergedEx ≠ heroTotalReviews heroOpenEx := by decide

/-- Claim C1 (amended): the hero detector is computed over the merged-PR
population — `main` passes it the (optionally outlier-filtered) merged
sample whenever merged PRs exist, independently of the open-PR list, and
per-reviewer counts never exceed the total taken over that sample. -/
theorem c1_hero_population (excl : Bool) (merged op op2 : List PullRequest) :
    heroInput excl merged op = heroInput excl merged op2
    ∧ (merged ≠ [] → heroInput excl merged op = some (mergedSample excl merged))
    ∧ (merged = [] → heroInput excl merged op = none)
    ∧ (∀ prs : List PullRequest, ∀ nm : String,
        heroReviewCount prs nm ≤ heroTotalReviews prs) := by
  refine ⟨rfl, ?_, ?_, fun prs nm => heroCount_le_total prs nm⟩
  · intro h
    unfold heroInput
    rw [if_pos (List.length_pos.mpr h)]
  · intro h
    subst h
    rfl

/-- Witness for C1 at the concrete merged/open pair. -/
theorem c1_witness :
    heroInput false heroMergedEx heroOpenEx = some (mergedSample false heroMergedEx) :=
  (c1_hero_population false heroMergedEx heroOpenEx heroOpenEx).2.1 (by decide)

/-! ## Claim C2 -/

/-- Counterexample to claim C2 as stated: a reviewer holding exactly half
of all reviews (1 of 2) is classified as high load, not critical, because
the code tests `percentage > 50` strictly. -/
theorem c2_counterexample :
    heroRiskLevel (heroPercentage 1 2) = some HeroRisk.highLoad
    ∧ heroRiskLevel (heroPercentage 1 2) ≠ some HeroRisk.critical := by
  have h : heroPercentage 1 2 = 50 := by norm_num [heroPercentage]
  rw [h]
  have h2 : heroRiskLevel 50 = some HeroRisk.highLoad := by norm_num [heroRiskLevel]
  rw [h2]
  simp

/-- Claim C2 (amended): the hero bands are share > 50% critical,
30% < share ≤ 50% high load, 20% < share ≤ 30% healthy-but-notable and
share ≤ 20% not reported; in particular a share of exactly 50% is high
load. -/
theorem c2_hero_bands (q : ℚ) :
    (50 < q → heroRiskLevel q = some HeroRisk.critical)
    ∧ (30 < q → q ≤ 50 → heroRiskLevel q = some HeroRisk.highLoad)
    ∧ (20 < q → q ≤ 30 → heroRiskLevel q = some HeroRisk.healthy)
    ∧ (q ≤ 20 → heroRiskLevel q = none) := by
  unfold heroRiskLevel
  refine ⟨?_, ?_, ?_, ?_⟩
  · intro h
    rw [if_pos (by linarith), if_pos (by linarith)]
  · intro h1 h2
    rw [if_pos (by linarith), if_neg (by linarith), if_pos (by linarith)]
  · intro h1 h2
    rw [if_pos (by linarith), if_neg (by linarith), if_neg (by linarith)]
  · intro h
    rw [if_neg (by linarith)]

/-- Witness for C2 at a share of exactly 50%. -/
theorem c2_witness : heroRiskLevel 50 = some HeroRisk.highLoad :=
  (c2_hero_bands 50).2.1 (by norm_num) (by norm_num)

/-! ## Claim C3 -/

/-- Counterexample to claim C3 as stated: a record merged 10 minutes
before its creation timestamp produces a negative merge duration which
`printGeneralStats` propagates unclamped into every aggregate value. -/
theorem c3_counterexample :
    generalStats [skewPR]
      = some ⟨1, -600000000000, -600000000000, -600000000000, -600000000000⟩
    ∧ mergeDuration skewPR < 0 := by decide

/-- Claim C3 (amended): only the triage-wait and active-review deltas of
the review-efficiency pass are clamped to zero when negative; the merge
duration itself is used unclamped.  The clamped deltas are always
non-negative. -/
theorem c3_phase_deltas_clamped (pr : PullRequest) :
    0 ≤ ((reviewWaitReview pr).getD (0, 0)).1
    ∧ 0 ≤ ((reviewWaitReview pr).getD (0, 0)).2 := by
  unfold reviewWaitReview
  cases pr.firstReviewAt with
  | none => simp
  | some fr =>
      simp only [Option.getD_some]
      constructor <;> split <;> omega

/-! ## Claim C4 -/

theorem length_trendsGo (prs : List PullRequest) (ms : List Int) (prev : Int) :
    (trendsGo prs prev ms).length = ms.length := by
  induction ms generalizing prev with
  | nil => rfl
  | cons m rest ih => simp [trendsGo, ih]

theorem trendsGo_adj (prs : List PullRequest) (ms : List Int) (prev : Int) (i : Nat)
    (h : i + 1 < (trendsGo prs prev ms).length) :
    ((trendsGo prs prev ms).getD (i + 1) (0, 0, none)).2.2
      = (if ((trendsGo prs prev ms).getD i (0, 0, none)).2.1 ≠ 0
         then some (classifyTrend ((trendsGo prs prev ms).getD (i + 1) (0, 0, none)).2.1
                      ((trendsGo prs prev ms).getD i (0, 0, none)).2.1)
         else none) := by
  induction ms generalizing prev i with
  | nil => simp [trendsGo] at h
  | cons m rest ih =>
      cases rest with
      | nil =>
          simp only [trendsGo, List.length_cons, List.length_nil] at h
          omega
      | cons m2 rest2 =>
          cases i with
          | zero => simp [trendsGo]
          | succ j =>
              have hlen : j + 1 < (trendsGo prs (monthAvg prs m) (m2 :: rest2)).length := by
                have h1 : (trendsGo prs prev (m :: m2 :: rest2)).length
                    = (trendsGo prs (monthAvg prs m) (m2 :: rest2)).length + 1 := by
                  simp [trendsGo]
                omega
              simpa [trendsGo, List.getD_cons_succ] using ih (monthAvg prs m) j hlen

/-- Counterexample to claim C4 as stated: with a January record of zero
duration and a February record of one hour, the February row carries no
trend marker at all (the loop guards on `prevAvg != 0`), although the
claim requires a classification against the zero January mean. -/
theorem c4_counterexample :
    trendMarks cex4 = [(202401, 0, none), (202402, 3600000000000, none)]
    ∧ ((trendMarks cex4).getD 1 (0, 0, none)).2.2 ≠ some (classifyTrend 3600000000000 0) := by
  decide

/-- Claim C4 (amended): iterating months in ascending order, a month after
the first is classified against the immediately preceding month's mean
(faster improving, slower degrading, equal flat) exactly when that
preceding mean is nonzero; when the preceding mean is zero — and always
for the first month — no trend marker is attached. -/
theorem c4_monthly_trend_markers (prs : List PullRequest) (i : Nat)
    (h : i + 1 < (trendMarks prs).length) :
    (((trendMarks prs).getD (i + 1) (0, 0, none)).2.2
       = (if ((trendMarks prs).getD i (0, 0, none)).2.1 ≠ 0
          then some (classifyTrend (((trendMarks prs).getD (i + 1) (0, 0, none)).2.1)
                       (((trendMarks prs).getD i (0, 0, none)).2.1))
          else none))
    ∧ ((trendMarks prs).getD 0 (0, 0, none)).2.2 = none := by
  constructor
  · exact trendsGo_adj prs (monthsOf prs) 0 i h
  · cases hm : monthsOf prs with
    | nil => simp [trendMarks, hm, trendsGo]
    | cons m ms => simp [trendMarks, hm, trendsGo]

/-- Witness for C4 at a two-month sample whose first mean is nonzero: the
second month is marked degrading. -/
theorem c4_witness : ((trendMarks wit4).getD 1 (0, 0, none)).2.2 = some Trend.degrading := by
  have h := (c4_monthly_trend_markers wit4 0 (by decide)).1
  rw [h]
  decide

/-! ## Claim C7 -/

/-- Claim C7: with at least 3 distinct months and a non-negative baseline
mean, the forecast trend is slowing down iff the last mean exceeds the
first by more than a tenth of the first, speeding up iff it falls short by
more than a tenth, and stable otherwise; with fewer than 3 distinct months
no forecast is produced. -/
theorem c7_forecast :
    (∀ prs : List PullRequest, (monthsOf prs).length < 3 → forecast prs = none)
    ∧ (∀ prs : List PullRequest, ∀ fc : Int, ∀ tr : FTrend,
        forecast prs = some (fc, tr) → 0 ≤ firstOfThreeMean prs →
        ((tr = FTrend.slowing
            ↔ 10 * (lastOfThreeMean prs - firstOfThreeMean prs) > firstOfThreeMean prs)
         ∧ (tr = FTrend.speeding
            ↔ 10 * (lastOfThreeMean prs - firstOfThreeMean prs) < -(firstOfThreeMean prs))
         ∧ (tr = FTrend.stable
            ↔ (¬ 10 * (lastOfThreeMean prs - firstOfThreeMean prs) > firstOfThreeMean prs
               ∧ ¬ 10 * (lastOfThreeMean prs - firstOfThreeMean prs)
                   < -(firstOfThreeMean prs))))) := by
  constructor
  · intro prs h
    unfold forecast
    rw [if_pos h]
  · intro prs fc tr h hf
    by_cases h3 : (monthsOf prs).length < 3
    · rw [forecast, if_pos h3] at h
      exact absurd h (by simp)
    · rw [forecast, if_neg h3] at h
      have htr : tr = forecastTrend (firstOfThreeMean prs) (lastOfThreeMean prs) :=
        ((Prod.mk.injEq _ _ _ _).mp (Option.some.inj h).symm).2
      subst htr
      unfold forecastTrend
      rw [tdiv_eq_ediv_of_nonneg (firstOfThreeMean prs) 10 hf (by norm_num)]
      dsimp only
      split_ifs with h1 h2
      · refine ⟨?_, ?_, ?_⟩ <;> simp <;> omega
      · refine ⟨?_, ?_, ?_⟩ <;> simp <;> omega
      · refine ⟨?_, ?_, ?_⟩ <;> simp <;> omega

/-- Witness for C7: three monthly means of 48h, 24h and 12h are classified
speeding up, so the speeding condition holds there. -/
theorem c7_witness :
    10 * (lastOfThreeMean f48sample - firstOfThreeMean f48sample)
      < -(firstOfThreeMean f48sample) := by
  have h := (c7_forecast.2 f48sample 100800000000000 FTrend.speeding (by decide) (by decide)).2.1
  exact h.mp rfl

/-! ## Claim C8 -/

theorem sum_map_const_q {α : Type} (l : List α) (f : α → ℚ) (c : ℚ)
    (h : ∀ x ∈ l, f x = c) : (l.map f).sum = l.length * c := by
  induction l with
  | nil => simp
  | cons a t ih =>
      simp only [List.map_cons, List.sum_cons, List.length_cons]
      rw [h a (List.mem_cons_self a t), ih (fun x hx => h x (List.mem_cons_of_mem a hx))]
      push_cast
      ring

/-- Claim C8: when every record has the same size (or the same duration),
the Pearson radicand is exactly zero and `printSizeAnalysis` yields the
coefficient 0 as an ordinary value rather than an error or an
indeterminate. -/
theorem c8_degenerate_correlation (prs : List PullRequest)
    (h : (∃ c : Int, ∀ pr ∈ prs, pr.size = c)
         ∨ (∃ d : Int, ∀ pr ∈ prs, mergeDuration pr = d)) :
    pearsonDenomSq prs = 0 ∧ correlation prs = 0 := by
  have hden : pearsonDenomSq prs = 0 := by
    rcases h with ⟨c, hc⟩ | ⟨d, hd⟩
    · have hx : sumX prs = prs.length * (c : ℚ) := by
        unfold sumX
        exact sum_map_const_q prs sizeQ (c : ℚ)
          (fun pr hpr => by unfold sizeQ; rw [hc pr hpr])
      have hx2 : sumX2 prs = prs.length * ((c : ℚ) * (c : ℚ)) := by
        unfold sumX2
        exact sum_map_const_q prs (fun pr => sizeQ pr * sizeQ pr) ((c : ℚ) * (c : ℚ))
          (fun pr hpr => by simp only [sizeQ, hc pr hpr])
      unfold pearsonDenomSq
      rw [hx, hx2]
      have hz : (prs.length : ℚ) * ((prs.length : ℚ) * ((c : ℚ) * (c : ℚ)))
          - (prs.length : ℚ) * (c : ℚ) * ((prs.length : ℚ) * (c : ℚ)) = 0 := by ring
      rw [hz, zero_mul]
    · have hy : sumY prs = prs.length * ((d : ℚ) / 3600000000000) := by
        unfold sumY
        exact sum_map_const_q prs hoursQ ((d : ℚ) / 3600000000000)
          (fun pr hpr => by unfold hoursQ; rw [hd pr hpr])
      have hy2 : sumY2 prs
          = prs.length * ((d : ℚ) / 3600000000000 * ((d : ℚ) / 3600000000000)) := by
        unfold sumY2
        exact sum_map_const_q prs (fun pr => hoursQ pr * hoursQ pr)
          ((d : ℚ) / 3600000000000 * ((d : ℚ) / 3600000000000))
          (fun pr hpr => by simp only [hoursQ, hd pr hpr])
      unfold pearsonDenomSq
      rw [hy, hy2]
      have hz : (prs.length : ℚ)
            * ((prs.length : ℚ) * ((d : ℚ) / 3600000000000 * ((d : ℚ) / 3600000000000)))
          - (prs.length : ℚ) * ((d : ℚ) / 3600000000000)
            * ((prs.length : ℚ) * ((d : ℚ) / 3600000000000)) = 0 := by ring
      rw [hz, mul_zero]
  refine ⟨hden, ?_⟩
  unfold correlation
  rw [if_pos hden]

/-- Witness for C8 at two records of identical size 7. -/
theorem c8_witness : pearsonDenomSq constSizeEx = 0 ∧ correlation constSizeEx = 0 :=
  c8_degenerate_correlation constSizeEx (Or.inl ⟨7, by decide⟩)

/-! ## Claim C9 -/

theorem generalStats_isSome (prs : List PullRequest) (h : prs ≠ []) :
    (generalStats prs).isSome := by
  unfold generalStats
  rw [if_neg (fun hc => h (List.length_eq_zero.mp hc))]
  rfl

theorem mergedSample_ne_nil (excl : Bool) (merged : List PullRequest) (h : merged ≠ []) :
    mergedSample excl merged ≠ [] := by
  unfold mergedSample
  cases excl
  · simpa using h
  · simpa using filterOutliers_ne_nil merged h

/-- Claim C9: on an empty merged-PR set, general statistics, correlation
and histogram are never invoked (their results are the explicit no-data
markers, and both lists empty triggers the "No PRs found." early exit);
on a non-empty merged set all three are produced, so the run always
returns a complete result. -/
theorem c9_empty_guard (excl : Bool) (merged openPRs : List PullRequest) :
    (merged = [] →
       (runAnalyses excl merged openPRs).general = none
       ∧ (runAnalyses excl merged openPRs).histogram = none
       ∧ runCorrelation excl merged = none
       ∧ (openPRs = [] → (runAnalyses excl merged openPRs).noPRs = true))
    ∧ (merged ≠ [] →
       ((runAnalyses excl merged openPRs).general).isSome
       ∧ ((runAnalyses excl merged openPRs).histogram).isSome
       ∧ (runCorrelation excl merged).isSome) := by
  constructor
  · intro h
    subst h
    refine ⟨?_, ?_, ?_, ?_⟩
    · by_cases ho : openPRs.length = 0 <;> simp [runAnalyses, ho]
    · by_cases ho : openPRs.length = 0 <;> simp [runAnalyses, ho]
    · simp [runCorrelation]
    · intro h2
      subst h2
      simp [runAnalyses]
  · intro h
    have hm : merged.length > 0 := List.length_pos.mpr h
    have hcond : ¬(merged.length = 0 ∧ openPRs.length = 0) := fun hc => by omega
    have hs := generalStats_isSome (mergedSample excl merged) (mergedSample_ne_nil excl merged h)
    refine ⟨?_, ?_, ?_⟩
    · unfold runAnalyses
      rw [if_neg hcond, if_pos hm]
      exact hs
    · unfold runAnalyses
      rw [if_neg hcond, if_pos hm]
      rfl
    · unfold runCorrelation
      rw [if_pos hm]
      rfl

/-- Witness for C9 at a one-record merged set and at the all-empty run. -/
theorem c9_witness :
    ((runAnalyses false heroMergedEx []).general).isSome
    ∧ (runAnalyses false [] []).noPRs = true :=
  ⟨((c9_empty_guard false heroMergedEx []).2 (by decide)).1,
   ((c9_empty_guard false [] []).1 rfl).2.2.2 rfl⟩
